import Mathlib

/-!
Shallow embedding of src/static/buildchart.js (latest revision of the script,
plus the absolute-humidity helpers of the first revision).

The script drives a time-series chart: it fetches sensor readings, derives
per-metric series, reconciles them into the chart dataset list, maintains a
small loading/error UI state machine, and maps a CO2 value to a severity band.

DOM mutations are modelled as an explicit event list (UIEvent) folded over a
UIState record; network behaviour is an input (FetchResult) since the fetch
call itself is an external collaborator.
-/

namespace BuildChart

/-- One sensor reading as decoded from the service JSON: a time in epoch
milliseconds, temperature, humidity, and an optional CO2 value. -/
structure Reading where
  time : ℤ
  temperature : ℚ
  humidity : ℚ
  co2 : Option ℚ
deriving DecidableEq, Repr

/-- One derived point of a series: time plus metric value. -/
structure Point where
  time : ℤ
  value : ℚ
deriving DecidableEq, Repr

/-- A chart point in x/y form, as produced inside update_chart. -/
structure XYPoint where
  x : ℤ
  y : ℚ
deriving DecidableEq, Repr

/-- The record returned by fetch_range_data and fetch_range_data_between:
one series per tracked metric. -/
structure Derived where
  temp : List Point
  humid : List Point
  co2 : List Point
deriving DecidableEq, Repr

/-- One chart dataset: label, target axis id, and point data. -/
structure Dataset where
  label : String
  yAxisID : String
  data : List XYPoint
deriving DecidableEq, Repr

/-- A single DOM mutation performed by the script. The two class-keyed
mutations act on all elements of the class at once, which the model folds
into one Boolean per class. -/
inductive UIEvent where
  | setHideUntilLoadedHidden (b : Bool)
  | setErrorText (s : String)
  | setErrorHidden (b : Bool)
  | setLoadTimeText (ms : ℤ)
  | setPointsLoadedText (n : ℕ)
  | setStartDateText (time : ℤ)
  | setEndDateText (time : ℤ)
  | setStartDateHidden (b : Bool)
  | setEndDateHidden (b : Bool)
  | setVisibleUntilLoadedHidden (b : Bool)
deriving DecidableEq, Repr

/-- The DOM state the script mutates. -/
structure UIState where
  hideUntilLoadedHidden : Bool
  errorText : String
  errorHidden : Bool
  loadTimeText : Option ℤ
  pointsLoadedText : Option ℕ
  startDateText : Option ℤ
  endDateText : Option ℤ
  startDateHidden : Bool
  endDateHidden : Bool
  visibleUntilLoadedHidden : Bool
deriving DecidableEq, Repr

/-- Apply one DOM mutation to the DOM state. -/
def applyEvent (ui : UIState) : UIEvent → UIState
  | .setHideUntilLoadedHidden b => { ui with hideUntilLoadedHidden := b }
  | .setErrorText s => { ui with errorText := s }
  | .setErrorHidden b => { ui with errorHidden := b }
  | .setLoadTimeText ms => { ui with loadTimeText := some ms }
  | .setPointsLoadedText n => { ui with pointsLoadedText := some n }
  | .setStartDateText t => { ui with startDateText := some t }
  | .setEndDateText t => { ui with endDateText := some t }
  | .setStartDateHidden b => { ui with startDateHidden := b }
  | .setEndDateHidden b => { ui with endDateHidden := b }
  | .setVisibleUntilLoadedHidden b => { ui with visibleUntilLoadedHidden := b }

/-- Run a list of DOM mutations in order. -/
def runEvents (ui : UIState) (events : List UIEvent) : UIState :=
  events.foldl applyEvent ui

/-- report_error: hide every hide-until-loaded element, set the error text,
show the error element. -/
def report_error (message : String) : List UIEvent :=
  [.setHideUntilLoadedHidden true, .setErrorText message, .setErrorHidden false]

/-- Outcome of the underlying fetch call: a thrown transport error, or a
response with a status, a body text, and a JSON decode that either fails
(decode error) or yields a list of readings. -/
inductive FetchResult where
  | throws (error : String)
  | resp (status : ℕ) (text : String) (json : Except String (List Reading))
deriving Repr

/-- fetch_data: issue the fetch, classify the outcome, update the stats and
visibility UI, and return the decoded body (the empty list on any failure).
Returns the DOM mutation list and the body. The finally block is the trailing
setVisibleUntilLoadedHidden event on every path. -/
def fetch_data (url : String) (res : FetchResult) (elapsed : ℤ) :
    List UIEvent × List Reading :=
  match res with
  | .throws error => (report_error error ++ [.setVisibleUntilLoadedHidden true], [])
  | .resp status text json =>
    if status ≠ 200 then
      (report_error text ++ [.setVisibleUntilLoadedHidden true], [])
    else
      match json with
      | .error error => (report_error error ++ [.setVisibleUntilLoadedHidden true], [])
      | .ok body =>
        let dateEvents : List UIEvent :=
          match body with
          | [] => [.setStartDateHidden true, .setEndDateHidden true]
          | first :: rest =>
            [.setStartDateText first.time,
             .setEndDateText ((first :: rest).getLast (List.cons_ne_nil _ _)).time]
        ([.setLoadTimeText elapsed, .setPointsLoadedText body.length,
          .setErrorHidden true, .setHideUntilLoadedHidden false]
          ++ dateEvents ++ [.setVisibleUntilLoadedHidden true], body)

/-- JavaScript truthiness of the optional co2 field: absent and 0 are falsy. -/
def co2_truthy : Option ℚ → Bool
  | none => false
  | some v => decide (v ≠ 0)

/-- fetch_range_data: fetch a preset range and derive the three series.
The co2 series keeps only readings whose co2 field is truthy. -/
def fetch_range_data (range : String) (res : FetchResult) (elapsed : ℤ) :
    List UIEvent × Derived :=
  let fetched := fetch_data ("/data/range/" ++ range) res elapsed
  let data := fetched.2
  let temp := data.map (fun d => { time := d.time, value := d.temperature : Point })
  let humid := data.map (fun d => { time := d.time, value := d.humidity : Point })
  let co2 := (data.filter (fun d => co2_truthy d.co2)).map
    (fun d => { time := d.time, value := d.co2.getD 0 : Point })
  (fetched.1, { temp := temp, humid := humid, co2 := co2 })

/-- The URL built by fetch_range_data_between. -/
def between_url (start_ms stop_ms : ℤ) : String :=
  "/data/from/" ++ toString start_ms ++ "/to/" ++ toString stop_ms

/-- fetch_range_data_between: fetch an explicit range and derive the three
series, exactly as fetch_range_data does. -/
def fetch_range_data_between (start_ms stop_ms : ℤ) (res : FetchResult)
    (elapsed : ℤ) : List UIEvent × Derived :=
  let fetched := fetch_data (between_url start_ms stop_ms) res elapsed
  let data := fetched.2
  let temp := data.map (fun d => { time := d.time, value := d.temperature : Point })
  let humid := data.map (fun d => { time := d.time, value := d.humidity : Point })
  let co2 := (data.filter (fun d => co2_truthy d.co2)).map
    (fun d => { time := d.time, value := d.co2.getD 0 : Point })
  (fetched.1, { temp := temp, humid := humid, co2 := co2 })

/-- Assignment datasets[i].data = newData on the dataset list: replaces the
data of the dataset at index i, leaving everything else in place. -/
def set_dataset_data : List Dataset → ℕ → List XYPoint → List Dataset
  | [], _, _ => []
  | d :: ds, 0, newData => { d with data := newData } :: ds
  | d :: ds, n + 1, newData => d :: set_dataset_data ds n newData

/-- update_chart: map the three derived series to x/y form; when the dataset
count differs from 3, push the three datasets (first call), otherwise replace
the data of the datasets at indices 0, 1, 2 in place. -/
def update_chart (datasets : List Dataset) (data : Derived) : List Dataset :=
  let dataset := data.temp.map (fun d => { x := d.time, y := d.value : XYPoint })
  let dataset1 := data.humid.map (fun d => { x := d.time, y := d.value : XYPoint })
  let dataset2 := data.co2.map (fun d => { x := d.time, y := d.value : XYPoint })
  if datasets.length ≠ 3 then
    datasets ++
      [{ label := "Temperature (C)", yAxisID := "y", data := dataset },
       { label := "Humidity (%H)", yAxisID := "y1", data := dataset1 },
       { label := "Co2 (ppm)", yAxisID := "y2", data := dataset2 }]
  else
    set_dataset_data (set_dataset_data (set_dataset_data datasets 0 dataset)
      1 dataset1) 2 dataset2

/-- Does fetch_data take a failure path (non-200, decode error, or throw)? -/
def is_failure : FetchResult → Bool
  | .throws _ => true
  | .resp status _ json =>
    decide (status ≠ 200) || (match json with | .error _ => true | .ok _ => false)

/-- One pan/zoom-driven refresh pipeline: fetch_range_data_between followed by
update_chart, returning the final DOM state and dataset list. -/
def run_between_pipeline (start_ms stop_ms : ℤ) (res : FetchResult)
    (elapsed : ℤ) (ui : UIState) (datasets : List Dataset) :
    UIState × List Dataset :=
  let fetched := fetch_range_data_between start_ms stop_ms res elapsed
  (runEvents ui fetched.1, update_chart datasets fetched.2)

/-- A chart-level action performed by an event handler. -/
inductive ChartAction where
  | fetchPreset (range : String)
  | fetchBetween (startMs stopMs : ℤ)
  | updateChart
  | resetZoom
deriving DecidableEq, Repr

/-- timespan.onchange: fetch the preset range, update the chart, then reset
the zoom (full reload). -/
def timespan_onchange (range : String) : List ChartAction :=
  [.fetchPreset range, .updateChart, .resetZoom]

/-- password.onchange delegates to timespan.onchange. -/
def password_onchange (range : String) : List ChartAction :=
  timespan_onchange range

/-- reset.onclick delegates to timespan.onchange. -/
def reset_onclick (range : String) : List ChartAction :=
  timespan_onchange range

/-- Math.round: round half toward positive infinity. -/
def jsRound (x : ℚ) : ℤ := ⌊x + 1 / 2⌋

/-- on_zoom_complete_check: round the viewport bounds and refresh through the
explicit-range fetch; no zoom reset. -/
def on_zoom_complete_check (axisMin axisMax : ℚ) : List ChartAction :=
  [.fetchBetween (jsRound axisMin) (jsRound axisMax), .updateChart]

/-- on_range_change (pan completed): identical to on_zoom_complete_check. -/
def on_range_change (axisMin axisMax : ℚ) : List ChartAction :=
  [.fetchBetween (jsRound axisMin) (jsRound axisMax), .updateChart]

/-- The query URL a zoom or pan refresh issues for given viewport bounds. -/
def zoom_query (axisMin axisMax : ℚ) : String :=
  between_url (jsRound axisMin) (jsRound axisMax)

/-- One CO2 severity band of co2_map: half-open interval with description and
display color. The end field is named end_q because end is a reserved word. -/
structure Band where
  start : ℚ
  end_q : ℚ
  description : String
  color : String
deriving DecidableEq, Repr

/-- The CO2 box element state: text content and background color. -/
structure Co2Box where
  textContent : String
  backgroundColor : String
deriving DecidableEq, Repr

/-- update_co2_box: find the first band with start less-or-equal the level and
the level strictly below the end, then assign its description and color to the
box. When no band matches, find yields undefined and the member access on it
throws a TypeError before any assignment: modelled as none. -/
def update_co2_box (co2_map : List Band) (co2_level : ℚ) (co2_box : Co2Box) :
    Option Co2Box :=
  let current_level := co2_map.find?
    (fun elem => decide (elem.start ≤ co2_level) && decide (co2_level < elem.end_q))
  match current_level with
  | some lvl => some { textContent := lvl.description, backgroundColor := lvl.color }
  | none => none

/-- A raw data object of the first script revision: time, temperature in
Celsius, relative humidity in percent. -/
structure DataRow where
  time : ℤ
  temperature : ℝ
  humidity : ℝ

/-- A derived real-valued point of the first script revision. -/
structure RPoint where
  time : ℤ
  value : ℝ

/-- calculate_saturation_pressure: Buck equation
P = 0.61121 * exp((18.678 - T / 234.5) * (T / (257.14 + T))). -/
noncomputable def calculate_saturation_pressure (temperature_c : ℝ) : ℝ :=
  let t_1 := temperature_c / 234.5
  let t_2 := temperature_c / (257.14 + temperature_c)
  let pow1 := (18.678 - t_1) * t_2
  let e := Real.exp pow1
  0.61121 * e

/-- absolute_humidity: vapor pressure from saturation pressure and relative
humidity, molar density from the ideal gas relation, scaled to grams of water
per cubic meter. -/
noncomputable def absolute_humidity (data : DataRow) : RPoint :=
  let temp := data.temperature
  let hum := data.humidity
  let saturation_pressure := calculate_saturation_pressure temp
  let vapor_pressure := saturation_pressure * (hum / 100)
  let moles := vapor_pressure / (461.5 * temp)
  { time := data.time, value := moles * 18.02 * 1000 }

/-- Initial DOM state of the page before any fetch. -/
def initial_ui : UIState :=
  { hideUntilLoadedHidden := false, errorText := "", errorHidden := true,
    loadTimeText := none, pointsLoadedText := none, startDateText := none,
    endDateText := none, startDateHidden := false, endDateHidden := false,
    visibleUntilLoadedHidden := false }

/-- A chart dataset list already populated by one successful pipeline. -/
def chart0 : List Dataset :=
  [{ label := "Temperature (C)", yAxisID := "y", data := [{ x := 0, y := 21 }] },
   { label := "Humidity (%H)", yAxisID := "y1", data := [{ x := 0, y := 40 }] },
   { label := "Co2 (ppm)", yAxisID := "y2", data := [{ x := 0, y := 600 }] }]

/-- The example band table of the spec scenarios. -/
def example_bands : List Band :=
  [{ start := 0, end_q := 600, description := "Good", color := "green" },
   { start := 600, end_q := 1000, description := "Moderate", color := "yellow" }]

/-- A concrete CO2 box state. -/
def box0 : Co2Box := { textContent := "", backgroundColor := "" }

/-- A concrete derived record for witness statements. -/
def derived0 : Derived :=
  { temp := [{ time := 1, value := 20 }],
    humid := [{ time := 1, value := 45 }],
    co2 := [{ time := 1, value := 700 }] }

/-- The DOM state after one call of fetch_data, starting from a given state. -/
def ui_after_fetch (url : String) (res : FetchResult) (elapsed : ℤ)
    (ui : UIState) : UIState :=
  runEvents ui (fetch_data url res elapsed).1

/-- The derived series produced by fetch_range_data_between. -/
def derived_between (start_ms stop_ms : ℤ) (res : FetchResult) (elapsed : ℤ) :
    Derived :=
  (fetch_range_data_between start_ms stop_ms res elapsed).2

/-! Helper lemmas -/

/-- Rounding an integer-valued bound is the identity. -/
theorem jsRound_intCast (n : ℤ) : jsRound (n : ℚ) = n := by
  show ⌊(n : ℚ) + 1 / 2⌋ = n
  rw [Int.floor_int_add]
  norm_num

/-- The value computed by absolute_humidity, spelled out. -/
theorem absolute_humidity_value (data : DataRow) :
    (absolute_humidity data).value =
      calculate_saturation_pressure data.temperature * (data.humidity / 100) /
        (461.5 * data.temperature) * 18.02 * 1000 := rfl

/-- The saturation pressure is strictly positive at every temperature. -/
theorem calculate_saturation_pressure_pos (t : ℝ) :
    0 < calculate_saturation_pressure t := by
  unfold calculate_saturation_pressure
  positivity

/-- On every failure path, fetch_data returns the empty reading list. -/
theorem fetch_data_failure_body (url : String) (res : FetchResult)
    (elapsed : ℤ) (h : is_failure res = true) :
    (fetch_data url res elapsed).2 = [] := by
  cases res with
  | throws e => rfl
  | resp status text json =>
    cases json with
    | error e =>
      by_cases hs : status = 200
      · subst hs; simp [fetch_data]
      · simp [fetch_data, hs]
    | ok body =>
      have hs : status ≠ 200 := by simpa [is_failure] using h
      simp [fetch_data, hs]

/-- The filter-then-map derivation of the co2 series is the in-order
collection of one point per reading with a truthy co2 field. -/
theorem co2_series_eq_filterMap (data : List Reading) :
    (data.filter (fun d => co2_truthy d.co2)).map
      (fun d => ({ time := d.time, value := d.co2.getD 0 } : Point)) =
    data.filterMap (fun d =>
      match d.co2 with
      | some v => if v = 0 then none else some { time := d.time, value := v }
      | none => none) := by
  induction data with
  | nil => rfl
  | cons d rest ih =>
    cases hc : d.co2 with
    | none =>
      simp [List.filter_cons, List.filterMap_cons, co2_truthy, hc] at ih ⊢
      exact ih
    | some v =>
      by_cases hv : v = 0
      · subst hv
        simp [List.filter_cons, List.filterMap_cons, co2_truthy, hc] at ih ⊢
        exact ih
      · simp [List.filter_cons, List.filterMap_cons, co2_truthy, hc, hv] at ih ⊢
        exact ih

/-! Claim theorems -/

/-- C2 counterexample: at temperature -10 Celsius and relative humidity 50,
the absolute-humidity formula yields a strictly negative value, refuting the
claim that the result is nonnegative for all T distinct from 0 and -257.14
with RH at least 0. -/
theorem c2_counterexample :
    (absolute_humidity { time := 0, temperature := -10, humidity := 50 }).value < 0 := by
  rw [absolute_humidity_value]
  have hsat := calculate_saturation_pressure_pos (-10)
  have hnum : 0 < calculate_saturation_pressure (-10) * ((50 : ℝ) / 100) :=
    mul_pos hsat (by norm_num)
  have hden : (461.5 : ℝ) * (-10) < 0 := by norm_num
  have hdiv : calculate_saturation_pressure (-10) * ((50 : ℝ) / 100) /
      (461.5 * (-10)) < 0 := div_neg_of_pos_of_neg hnum hden
  have h1 : calculate_saturation_pressure (-10) * ((50 : ℝ) / 100) /
      (461.5 * (-10)) * 18.02 < 0 := mul_neg_of_neg_of_pos hdiv (by norm_num)
  simpa using mul_neg_of_neg_of_pos h1 (by norm_num : (0 : ℝ) < 1000)

/-- C2 (amended): for strictly positive temperature in Celsius and
nonnegative relative humidity, the absolute-humidity computation returns a
nonnegative value. -/
theorem c2_abs_humidity_nonneg (data : DataRow) (ht : 0 < data.temperature)
    (hh : 0 ≤ data.humidity) : 0 ≤ (absolute_humidity data).value := by
  rw [absolute_humidity_value]
  have hsat := calculate_saturation_pressure_pos data.temperature
  have hnum : 0 ≤ calculate_saturation_pressure data.temperature *
      (data.humidity / 100) :=
    mul_nonneg hsat.le (div_nonneg hh (by norm_num))
  have hden : 0 ≤ (461.5 : ℝ) * data.temperature :=
    mul_nonneg (by norm_num) ht.le
  exact mul_nonneg (mul_nonneg (div_nonneg hnum hden) (by norm_num)) (by norm_num)

/-- C2 witness: the amended theorem applied at temperature 1 and humidity 0. -/
theorem c2_witness :
    (0 : ℝ) < 1 ∧ (0 : ℝ) ≤ 0 ∧
    0 ≤ (absolute_humidity { time := 0, temperature := 1, humidity := 0 }).value :=
  ⟨one_pos, le_refl 0,
    c2_abs_humidity_nonneg { time := 0, temperature := 1, humidity := 0 }
      one_pos (le_refl 0)⟩

/-- C10: rounding the viewport bounds before building the explicit-range
query is idempotent; building from already-rounded bounds yields the same
rounded bounds and the same query. -/
theorem c10_round_build_idempotent (mn mx : ℚ) :
    jsRound ((jsRound mn : ℤ) : ℚ) = jsRound mn ∧
    jsRound ((jsRound mx : ℤ) : ℚ) = jsRound mx ∧
    zoom_query ((jsRound mn : ℤ) : ℚ) ((jsRound mx : ℤ) : ℚ) = zoom_query mn mx := by
  refine ⟨jsRound_intCast _, jsRound_intCast _, ?_⟩
  simp [zoom_query, jsRound_intCast]

/-- C8: when the band list contains a matching band, update_co2_box selects
the first band whose half-open interval contains the level, applies its
description and color, and in particular the value 550 against the example
bands yields description Good and color green. -/
theorem c8_band_lookup (co2_map : List Band) (v : ℚ) (b : Band) (box : Co2Box)
    (h : co2_map.find?
      (fun elem => decide (elem.start ≤ v) && decide (v < elem.end_q)) = some b) :
    update_co2_box co2_map v box =
      some { textContent := b.description, backgroundColor := b.color } ∧
    (b.start ≤ v ∧ v < b.end_q) ∧
    update_co2_box example_bands 550 box0 =
      some { textContent := "Good", backgroundColor := "green" } := by
  refine ⟨by simp [update_co2_box, h], ?_, by decide⟩
  have hp := List.find?_some h
  simpa using hp

/-- C8 witness: the lookup theorem applied at the example bands and level 550. -/
theorem c8_band_lookup_witness :
    example_bands.find?
      (fun elem => decide (elem.start ≤ (550 : ℚ)) && decide ((550 : ℚ) < elem.end_q)) =
      some { start := 0, end_q := 600, description := "Good", color := "green" } ∧
    update_co2_box example_bands 550 box0 =
      some { textContent := "Good", backgroundColor := "green" } :=
  ⟨by decide,
    (c8_band_lookup example_bands 550
      { start := 0, end_q := 600, description := "Good", color := "green" }
      box0 (by decide)).1⟩

/-- C9 counterexample: level 1500 is contained in no example band; the claim
says the update completes without applying description or color, but the code
dereferences the undefined lookup result and faults, modelled as none rather
than a completed unchanged box. -/
theorem c9_counterexample :
    example_bands.find?
      (fun elem => decide (elem.start ≤ (1500 : ℚ)) && decide ((1500 : ℚ) < elem.end_q)) = none ∧
    update_co2_box example_bands 1500 box0 = none ∧
    update_co2_box example_bands 1500 box0 ≠ some box0 := by decide

/-- C9 (amended): for a level contained in no band, the lookup yields no
match and update_co2_box faults on the member access of the undefined result
before applying any description or color, modelled as returning none. -/
theorem c9_no_match_faults (co2_map : List Band) (v : ℚ) (box : Co2Box)
    (h : ∀ b ∈ co2_map, ¬(b.start ≤ v ∧ v < b.end_q)) :
    update_co2_box co2_map v box = none := by
  have hf : co2_map.find?
      (fun elem => decide (elem.start ≤ v) && decide (v < elem.end_q)) = none := by
    rw [List.find?_eq_none]
    intro b hb
    simpa using h b hb
  simp [update_co2_box, hf]

/-- C9 witness: the amended theorem applied at the example bands and level
1500. -/
theorem c9_no_match_faults_witness :
    (∀ b ∈ example_bands, ¬(b.start ≤ (1500 : ℚ) ∧ (1500 : ℚ) < b.end_q)) ∧
    update_co2_box example_bands 1500 box0 = none :=
  ⟨by decide, c9_no_match_faults example_bands 1500 box0 (by decide)⟩

/-- C4: on every fetch outcome, the in-flight indicator elements are hidden
exactly once, and that mutation is the last one of the call, so it runs after
the fetch settles on every exit path. -/
theorem c4_inflight_hidden_once (url : String) (res : FetchResult) (elapsed : ℤ) :
    (fetch_data url res elapsed).1.count (.setVisibleUntilLoadedHidden true) = 1 ∧
    (fetch_data url res elapsed).1.getLast? =
      some (.setVisibleUntilLoadedHidden true) := by
  cases res with
  | throws error => exact ⟨rfl, rfl⟩
  | resp status text json =>
    by_cases h : status = 200
    · subst h
      cases json with
      | error e => exact ⟨rfl, rfl⟩
      | ok body =>
        cases body with
        | nil => exact ⟨rfl, rfl⟩
        | cons first rest => exact ⟨rfl, rfl⟩
    · have hfd : fetch_data url (.resp status text json) elapsed =
          (report_error text ++ [.setVisibleUntilLoadedHidden true], []) := by
        simp [fetch_data, h]
      rw [hfd]
      exact ⟨rfl, rfl⟩

/-- C5: a non-200 response is reported as a failure whose message is the
response body text: the error element shows that text, and the
result-dependent elements are hidden. -/
theorem c5_non200_reports_body (url : String) (status : ℕ) (text : String)
    (json : Except String (List Reading)) (elapsed : ℤ) (ui : UIState)
    (h : status ≠ 200) :
    (ui_after_fetch url (.resp status text json) elapsed ui).errorText = text ∧
    (ui_after_fetch url (.resp status text json) elapsed ui).errorHidden = false ∧
    (ui_after_fetch url (.resp status text json) elapsed ui).hideUntilLoadedHidden = true := by
  have hfd : fetch_data url (.resp status text json) elapsed =
      (report_error text ++ [.setVisibleUntilLoadedHidden true], []) := by
    simp [fetch_data, h]
  refine ⟨?_, ?_, ?_⟩ <;>
    simp [ui_after_fetch, hfd, runEvents, report_error, applyEvent]

/-- C5 witness: the theorem applied to an HTTP 500 response with body
db unavailable, from the initial DOM state. -/
theorem c5_non200_reports_body_witness :
    (500 : ℕ) ≠ 200 ∧
    ((ui_after_fetch "/data/range/1h"
        (.resp 500 "db unavailable" (.ok [])) 5 initial_ui).errorText = "db unavailable" ∧
     (ui_after_fetch "/data/range/1h"
        (.resp 500 "db unavailable" (.ok [])) 5 initial_ui).errorHidden = false ∧
     (ui_after_fetch "/data/range/1h"
        (.resp 500 "db unavailable" (.ok [])) 5 initial_ui).hideUntilLoadedHidden = true) :=
  ⟨by decide,
    c5_non200_reports_body "/data/range/1h" 500 "db unavailable" (.ok []) 5
      initial_ui (by decide)⟩

/-- C6: on a successful fetch, the temperature and humidity series each carry
one point per reading; the co2 series is the in-order collection of one point
per reading with a truthy co2 field, skipping absent and zero co2, so it is
never longer than the reading sequence. -/
theorem c6_co2_series_filter (start_ms stop_ms elapsed : ℤ) (text : String)
    (body : List Reading) :
    (derived_between start_ms stop_ms (.resp 200 text (.ok body)) elapsed).temp.length =
      body.length ∧
    (derived_between start_ms stop_ms (.resp 200 text (.ok body)) elapsed).humid.length =
      body.length ∧
    (derived_between start_ms stop_ms (.resp 200 text (.ok body)) elapsed).co2 =
      body.filterMap (fun d =>
        match d.co2 with
        | some v => if v = 0 then none else some { time := d.time, value := v }
        | none => none) ∧
    (derived_between start_ms stop_ms (.resp 200 text (.ok body)) elapsed).co2.length ≤
      body.length := by
  have hfd : (fetch_data (between_url start_ms stop_ms)
      (.resp 200 text (.ok body)) elapsed).2 = body := by
    cases body <;> simp [fetch_data]
  refine ⟨?_, ?_, ?_, ?_⟩
  · simp [derived_between, fetch_range_data_between, hfd]
  · simp [derived_between, fetch_range_data_between, hfd]
  · simp only [derived_between, fetch_range_data_between, hfd]
    exact co2_series_eq_filterMap body
  · simp only [derived_between, fetch_range_data_between, hfd, List.length_map]
    exact List.length_filter_le _ _

/-- C3: once the chart holds its three dataset slots, the reconciler replaces
only the point sequence of each dataset at its fixed index, preserving count,
order, labels, and axis bindings; a second call with the same derived series
changes nothing further; and a chart whose dataset count differs from three
gets the three datasets appended in a fixed order. -/
theorem c3_reconciler_idempotent (ds ds2 : List Dataset) (d : Derived)
    (h : ds.length = 3) (h2 : ds2.length ≠ 3) :
    (update_chart ds d).length = 3 ∧
    (update_chart ds d).map Dataset.label = ds.map Dataset.label ∧
    (update_chart ds d).map Dataset.yAxisID = ds.map Dataset.yAxisID ∧
    (update_chart ds d).map Dataset.data =
      [d.temp.map (fun p => { x := p.time, y := p.value }),
       d.humid.map (fun p => { x := p.time, y := p.value }),
       d.co2.map (fun p => { x := p.time, y := p.value })] ∧
    update_chart (update_chart ds d) d = update_chart ds d ∧
    update_chart ds2 d = ds2 ++
      [{ label := "Temperature (C)", yAxisID := "y",
         data := d.temp.map (fun p => { x := p.time, y := p.value }) },
       { label := "Humidity (%H)", yAxisID := "y1",
         data := d.humid.map (fun p => { x := p.time, y := p.value }) },
       { label := "Co2 (ppm)", yAxisID := "y2",
         data := d.co2.map (fun p => { x := p.time, y := p.value }) }] := by
  obtain ⟨a, b, c, rfl⟩ := List.length_eq_three.mp h
  refine ⟨?_, ?_, ?_, ?_, ?_, ?_⟩ <;>
    simp [update_chart, set_dataset_data, h2]

/-- C3 witness: the reconciler theorem applied to a populated three-slot
chart, the empty dataset list, and a concrete derived record. -/
theorem c3_reconciler_idempotent_witness :
    chart0.length = 3 ∧ ([] : List Dataset).length ≠ 3 ∧
    ((update_chart chart0 derived0).length = 3 ∧
     (update_chart chart0 derived0).map Dataset.label = chart0.map Dataset.label ∧
     (update_chart chart0 derived0).map Dataset.yAxisID = chart0.map Dataset.yAxisID ∧
     (update_chart chart0 derived0).map Dataset.data =
       [derived0.temp.map (fun p => { x := p.time, y := p.value }),
        derived0.humid.map (fun p => { x := p.time, y := p.value }),
        derived0.co2.map (fun p => { x := p.time, y := p.value })] ∧
     update_chart (update_chart chart0 derived0) derived0 =
       update_chart chart0 derived0 ∧
     update_chart ([] : List Dataset) derived0 = ([] : List Dataset) ++
       [{ label := "Temperature (C)", yAxisID := "y",
          data := derived0.temp.map (fun p => { x := p.time, y := p.value }) },
        { label := "Humidity (%H)", yAxisID := "y1",
          data := derived0.humid.map (fun p => { x := p.time, y := p.value }) },
        { label := "Co2 (ppm)", yAxisID := "y2",
          data := derived0.co2.map (fun p => { x := p.time, y := p.value }) }]) :=
  ⟨rfl, by decide, c3_reconciler_idempotent chart0 [] derived0 rfl (by decide)⟩

/-- C1 counterexample: a pan/zoom refresh pipeline that ends in an HTTP 500
failure does not leave the previously rendered dataset contents unchanged:
the populated chart has its three point sequences replaced by empty ones. -/
theorem c1_counterexample :
    (run_between_pipeline 0 10 (.resp 500 "db unavailable" (.ok [])) 5
        initial_ui chart0).2 ≠ chart0 ∧
    ((run_between_pipeline 0 10 (.resp 500 "db unavailable" (.ok [])) 5
        initial_ui chart0).2).map Dataset.data = [[], [], []] := by
  constructor
  · decide
  · decide

/-- C1 (amended): a failing pipeline preserves the dataset slots, their
order, labels, and axis bindings, but does not preserve their contents: the
fetch returns the empty reading list, so each point sequence of a populated
chart is replaced by the empty sequence. -/
theorem c1_failure_clears_points (start_ms stop_ms : ℤ) (res : FetchResult)
    (elapsed : ℤ) (ui : UIState) (ds : List Dataset)
    (hf : is_failure res = true) (h3 : ds.length = 3) :
    ((run_between_pipeline start_ms stop_ms res elapsed ui ds).2).map Dataset.label =
      ds.map Dataset.label ∧
    ((run_between_pipeline start_ms stop_ms res elapsed ui ds).2).map Dataset.yAxisID =
      ds.map Dataset.yAxisID ∧
    ((run_between_pipeline start_ms stop_ms res elapsed ui ds).2).map Dataset.data =
      [[], [], []] := by
  obtain ⟨a, b, c, rfl⟩ := List.length_eq_three.mp h3
  have hbody := fetch_data_failure_body (between_url start_ms stop_ms) res elapsed hf
  refine ⟨?_, ?_, ?_⟩ <;>
    simp [run_between_pipeline, fetch_range_data_between, hbody, update_chart,
      set_dataset_data]

/-- C1 witness: the amended theorem applied to a concrete failing response
and the populated chart. -/
theorem c1_failure_clears_points_witness :
    is_failure (.resp 500 "db unavailable" (.ok [])) = true ∧
    chart0.length = 3 ∧
    (((run_between_pipeline 0 10 (.resp 500 "db unavailable" (.ok [])) 5
        initial_ui chart0).2).map Dataset.label = chart0.map Dataset.label ∧
     ((run_between_pipeline 0 10 (.resp 500 "db unavailable" (.ok [])) 5
        initial_ui chart0).2).map Dataset.yAxisID = chart0.map Dataset.yAxisID ∧
     ((run_between_pipeline 0 10 (.resp 500 "db unavailable" (.ok [])) 5
        initial_ui chart0).2).map Dataset.data = [[], [], []]) :=
  ⟨rfl, rfl,
    c1_failure_clears_points 0 10 (.resp 500 "db unavailable" (.ok [])) 5
      initial_ui chart0 rfl rfl⟩

/-- C7: every full-reload handler performs exactly one zoom reset as its last
action, after the chart update; the credential-change and explicit-reset
handlers delegate to the preset-change handler; and neither the
zoom-completed nor the pan-completed refresh ever resets the zoom. -/
theorem c7_viewport_reset_policy (range : String) (mn mx : ℚ) :
    (timespan_onchange range).count .resetZoom = 1 ∧
    (timespan_onchange range).getLast? = some .resetZoom ∧
    ChartAction.updateChart ∈ (timespan_onchange range).dropLast ∧
    ChartAction.resetZoom ∉ (timespan_onchange range).dropLast ∧
    password_onchange range = timespan_onchange range ∧
    reset_onclick range = timespan_onchange range ∧
    ChartAction.resetZoom ∉ on_zoom_complete_check mn mx ∧
    ChartAction.resetZoom ∉ on_range_change mn mx := by
  refine ⟨?_, ?_, ?_, ?_, rfl, rfl, ?_, ?_⟩ <;>
    simp [timespan_onchange, on_zoom_complete_check, on_range_change,
      List.count_cons, List.dropLast]

end BuildChart
